import Mathlib

/-!
Shallow embedding of the reconciliation / publish engine of the
markdown-confluence repository (packages/lib/src): `Publisher.ts`
(`publish`, `publishFile`, `updatePageContent`, `updateLabels`),
`TreeConfluence.ts` (`ensureAllFilesExistInConfluence`,
`createFileStructureInConfluence`, `ensurePageExists`, `flattenTree`)
and `MarkdownParser.ts` (`getFrontmatterFromMd`).

Modelling conventions:
* ADF documents are abstracted to an opaque type `AdfDoc := Nat`; the external
  helper `adfEqual` (structural equality after mark normalisation) and
  `JSON.stringify` string equality both become equality on `AdfDoc`.  This is
  sound for the properties below because string-equal JSON documents are
  structurally equal, hence `adfEqual`; no claim depends on two documents that
  are `adfEqual` but serialise differently.
* JavaScript `Set<string>` iteration (insertion order, first occurrence kept)
  is `jsSetList`; JS truthiness of an optional string (`undefined`/`null`/`""`
  are falsy) is `jsTruthy`.
* Asynchronous code is embedded as pure functions; thrown exceptions become
  `Except` errors; remote calls and `updateMarkdownValues` persistence are
  recorded as explicit event/write lists in program order.  `Promise.all` over
  children is serialised left to right: every child task is only started after
  the parent's `await`s have completed, so any property of the form "parent
  event precedes all child events" is insensitive to the serialisation.
-/

namespace MdConf

/-- Opaque abstraction of an ADF (atlas document format) JSON document. -/
abbrev AdfDoc := Nat

/-- `adfEqual` from `AdfEqual.ts`: structural equality of two ADF documents
(normalising mark order).  On the opaque `AdfDoc` this is plain equality. -/
def adfEqual (a b : AdfDoc) : Bool := a == b

/-- Equality of `JSON.stringify` serialisations of two ADF documents
(`isEqual(JSON.stringify(a), JSON.stringify(b))` in `Publisher.ts`).
String-equal serialisations denote identical documents, so on the opaque
`AdfDoc` this is again plain equality. -/
def jsonStringifyEq (a b : AdfDoc) : Bool := a == b

/-- JS truthiness of an optional string: `undefined`/`null` and `""` are
falsy, every other string is truthy. -/
def jsTruthy : Option String → Bool
  | none => false
  | some s => s != ""

/-- JS `String.prototype.trim`: strip leading and trailing whitespace. -/
def jsTrim (s : String) : String :=
  String.mk (((s.data.dropWhile Char.isWhitespace).reverse.dropWhile Char.isWhitespace).reverse)

/-- The JS pattern `p && p.trim() !== ''` on an optional string. -/
def jsTruthyTrim : Option String → Bool
  | none => false
  | some s => jsTrim s != ""

/-- The list of elements of a JS `Set<string>` built by inserting the elements
of `l` in order: first occurrences, in insertion order (`[...new Set(l)]`). -/
def jsSetList : List String → List String
  | [] => []
  | x :: xs => x :: (jsSetList xs).filter (fun y => y != x)

theorem mem_jsSetList (a : String) : ∀ (l : List String), a ∈ jsSetList l ↔ a ∈ l := by
  intro l
  induction l with
  | nil => simp [jsSetList]
  | cons x xs ih =>
      simp only [jsSetList, List.mem_cons, List.mem_filter, ih, bne_iff_ne, ne_eq,
        decide_eq_true_eq]
      by_cases hax : a = x
      · simp [hax]
      · simp [hax]

theorem nodup_jsSetList : ∀ (l : List String), (jsSetList l).Nodup := by
  intro l
  induction l with
  | nil => simp [jsSetList]
  | cons x xs ih =>
      refine List.nodup_cons.mpr ⟨?_, List.Nodup.filter _ ih⟩
      intro hmem
      have h2 := (List.mem_filter.mp hmem).2
      simp at h2

/-- Result of the content comparison for one node (`"same" | "updated"`). -/
inductive UpdResult
  | same
  | updated
deriving DecidableEq, Repr

/-- Result of label reconciliation for one node (`"same" | "updated" | "error"`). -/
inductive LabelResult
  | same
  | updated
  | error
deriving DecidableEq, Repr

/-- `labelsToAdd` of `Publisher.updateLabels`: required labels (the file's
tags, deduplicated via a JS `Set`) that are not in the current remote label
set. -/
def labelsToAdd (tags currentNames : List String) : List String :=
  (jsSetList tags).filter (fun l => !(currentNames.contains l))

/-- `labelsToRemove` of `Publisher.updateLabels`: current remote labels
(deduplicated via a JS `Set`) that are not among the file's tags. -/
def labelsToRemove (tags currentNames : List String) : List String :=
  (jsSetList currentNames).filter (fun l => !(tags.contains l))

/-- The remote label calls issued by `updateLabels`: each entry of `addCalls`
is one `addLabelsToContent` request (carrying its whole label list), each
entry of `removeCalls` is one
`removeLabelFromContentUsingQueryParameter` request. -/
structure LabelWrites where
  addCalls : List (List String)
  removeCalls : List String
deriving DecidableEq, Repr

/-- `Publisher.updateLabels` (current `Publisher.ts`): given the file's tags
and the label names fetched from the remote object, compute the label result
and the add/remove calls.  The surrounding `try`/`catch` (which downgrades a
failed label call to `labelResult = "error"`) is not modelled here: the
claims about label diffing are conditional on the label fetch succeeding, and
the environment model makes label calls total. -/
def updateLabels (tags currentNames : List String) : LabelResult × LabelWrites :=
  let toAdd := labelsToAdd tags currentNames
  let toRemove := labelsToRemove tags currentNames
  let res : LabelResult :=
    if toAdd.length > 0 || toRemove.length > 0 then .updated else .same
  (res, ⟨if toAdd.length > 0 then [toAdd] else [], toRemove⟩)

theorem mem_labelsToAdd (tags cur : List String) (l : String) :
    l ∈ labelsToAdd tags cur ↔ (l ∈ tags ∧ l ∉ cur) := by
  simp [labelsToAdd, List.mem_filter, mem_jsSetList, List.elem_iff]

theorem mem_labelsToRemove (tags cur : List String) (l : String) :
    l ∈ labelsToRemove tags cur ↔ (l ∈ cur ∧ l ∉ tags) := by
  simp [labelsToRemove, List.mem_filter, mem_jsSetList, List.elem_iff]

/-- C8: `updateLabels` calls add-labels exactly once with exactly the set
difference desired-minus-current (when non-empty), calls remove-label exactly
once per label in current-minus-desired, and reports `labelResult = "updated"`
iff at least one label is added or removed. -/
theorem claim_C8_label_diffing (tags cur : List String) :
    ((updateLabels tags cur).2.addCalls =
      if labelsToAdd tags cur = [] then [] else [labelsToAdd tags cur])
    ∧ (∀ l, l ∈ labelsToAdd tags cur ↔ (l ∈ tags ∧ l ∉ cur))
    ∧ (updateLabels tags cur).2.removeCalls.Nodup
    ∧ (∀ l, l ∈ (updateLabels tags cur).2.removeCalls ↔ (l ∈ cur ∧ l ∉ tags))
    ∧ ((updateLabels tags cur).1 = .updated ↔
        (∃ l, (l ∈ tags ∧ l ∉ cur) ∨ (l ∈ cur ∧ l ∉ tags))) := by
  refine ⟨?_, mem_labelsToAdd tags cur, ?_, ?_, ?_⟩
  · by_cases h : labelsToAdd tags cur = []
    · simp [updateLabels, h]
    · have hlen : 0 < (labelsToAdd tags cur).length := List.length_pos.mpr h
      simp [updateLabels, hlen, h]
  · exact List.Nodup.filter _ (nodup_jsSetList cur)
  · intro l
    simpa [updateLabels] using mem_labelsToRemove tags cur l
  · constructor
    · intro hres
      by_contra hno
      push_neg at hno
      have hadd : labelsToAdd tags cur = [] := by
        rw [List.eq_nil_iff_forall_not_mem]
        intro x hx
        have hx' := (mem_labelsToAdd tags cur x).mp hx
        exact hx'.2 ((hno x).1 hx'.1)
      have hrem : labelsToRemove tags cur = [] := by
        rw [List.eq_nil_iff_forall_not_mem]
        intro x hx
        have hx' := (mem_labelsToRemove tags cur x).mp hx
        exact hx'.2 ((hno x).2 hx'.1)
      simp [updateLabels, hadd, hrem] at hres
    · rintro ⟨l, hl | hl⟩
      · have hm : l ∈ labelsToAdd tags cur := (mem_labelsToAdd tags cur l).mpr hl
        have hlen : 0 < (labelsToAdd tags cur).length := List.length_pos.mpr (by
          intro hnil; rw [hnil] at hm; exact (List.not_mem_nil l) hm)
        simp [updateLabels, hlen]
      · have hm : l ∈ labelsToRemove tags cur := (mem_labelsToRemove tags cur l).mpr hl
        have hlen : 0 < (labelsToRemove tags cur).length := List.length_pos.mpr (by
          intro hnil; rw [hnil] at hm; exact (List.not_mem_nil l) hm)
        simp [updateLabels, hlen]

/-- Frontmatter record as seen by `MarkdownParser.getFrontmatterFromMd`
after `gray-matter` parsing: the two parent fields
(`connie-parent-page-id`, `connie-parent-folder-id`) plus all remaining
key/value pairs, which the parser never touches. -/
structure Frontmatter where
  parentPageId : Option String
  parentFolderId : Option String
  rest : List (String × String)
deriving DecidableEq, Repr

/-- `MarkdownParser.getFrontmatterFromMd` (validation part): if both parent
fields are (truthily) set, delete `connie-parent-page-id` and warn.  The
returned `Bool` records whether the warning was emitted. -/
def getFrontmatterFromMd (fm : Frontmatter) : Frontmatter × Bool :=
  if jsTruthy fm.parentPageId && jsTruthy fm.parentFolderId then
    ({ fm with parentPageId := none }, true)
  else
    (fm, false)

/-- C9: when a source record's frontmatter sets both `connie-parent-page-id`
and `connie-parent-folder-id`, the parser discards the parent page ID (the
result keeps only the folder ID, every other key unchanged) and emits a
warning; the two parent fields are never both present in the result. -/
theorem claim_C9_parent_exclusivity (fm : Frontmatter)
    (hp : jsTruthy fm.parentPageId = true)
    (hf : jsTruthy fm.parentFolderId = true) :
    (getFrontmatterFromMd fm).1.parentPageId = none
    ∧ (getFrontmatterFromMd fm).1.parentFolderId = fm.parentFolderId
    ∧ (getFrontmatterFromMd fm).1.rest = fm.rest
    ∧ (getFrontmatterFromMd fm).2 = true
    ∧ ¬((getFrontmatterFromMd fm).1.parentPageId.isSome
        ∧ (getFrontmatterFromMd fm).1.parentFolderId.isSome) := by
  simp [getFrontmatterFromMd, hp, hf]

/-- Witness for C9 at a concrete record with both parent fields set. -/
theorem claim_C9_parent_exclusivity_witness :
    (getFrontmatterFromMd ⟨some "123", some "456", [("connie-publish", "true")]⟩).1.parentPageId = none
    ∧ (getFrontmatterFromMd ⟨some "123", some "456", [("connie-publish", "true")]⟩).1.parentFolderId = some "456"
    ∧ (getFrontmatterFromMd ⟨some "123", some "456", [("connie-publish", "true")]⟩).1.rest = [("connie-publish", "true")]
    ∧ (getFrontmatterFromMd ⟨some "123", some "456", [("connie-publish", "true")]⟩).2 = true
    ∧ ¬((getFrontmatterFromMd ⟨some "123", some "456", [("connie-publish", "true")]⟩).1.parentPageId.isSome
        ∧ (getFrontmatterFromMd ⟨some "123", some "456", [("connie-publish", "true")]⟩).1.parentFolderId.isSome) := by
  have h := claim_C9_parent_exclusivity ⟨some "123", some "456", [("connie-publish", "true")]⟩
    (by decide) (by decide)
  exact h

/-- `ConfluenceAdfFile` from `Publisher.ts` (fields not consulted by the
update phase, such as `folderName`/`fileName`/`frontmatter`, are omitted).
Content types are the strings `"page"`, `"blogpost"`, `"folder"`
(`PageContentType`); `existingPageData.contentType` is a plain string in the
source, so content types are embedded as strings throughout. -/
structure ConfluenceAdfFile where
  absoluteFilePath : String
  contents : AdfDoc
  pageTitle : String
  tags : List String
  dontChangeParentPageId : Bool
  pageId : String
  spaceKey : String
  parentPageId : Option String
  parentFolderId : Option String
  contentType : String
  blogPostDate : Option String
deriving DecidableEq, Repr

/-- `ConfluencePageExistingData` from `Publisher.ts`; ancestors are kept as
the list of ancestor ids. -/
structure ConfluencePageExistingData where
  adfContent : AdfDoc
  pageTitle : String
  ancestors : List String
  contentType : String
deriving DecidableEq, Repr

/-- `UploadAdfFileResult` minus the `adfFile` back-reference. -/
structure UploadAdfFileResult where
  contentResult : UpdResult
  imageResult : UpdResult
  labelResult : LabelResult
deriving DecidableEq, Repr

/-- Client capabilities probed dynamically by `updatePageContent`:
`isV2Api` is `'apiVersion' in client && client.apiVersion === 'v2'`,
`v2Folders` is `'v2' in client && client.v2?.folders` available,
`v2UpdateFolder` is `'updateFolder' in client.v2.folders`. -/
structure ClientCaps where
  isV2Api : Bool
  v2Folders : Bool
  v2UpdateFolder : Bool
deriving DecidableEq, Repr

/-- The `contentUpdateData` request body built by `updatePageContent`
(lines 513-558 of `Publisher.ts`). -/
structure ContentUpdatePayload where
  id : String
  title : String
  type : String
  spaceKey : String
  versionNumber : Nat
  bodyAdf : AdfDoc
  ancestors : Option (List String)
  blogpostWhen : Option String
deriving DecidableEq, Repr

/-- A remote write call issued by the update phase, in program order. -/
inductive RemoteWrite
  | contentUpdate (p : ContentUpdatePayload)
  | folderUpdate (folderId title : String)
  | labelAdd (pageId : String) (labels : List String)
  | labelRemove (pageId label : String)
deriving DecidableEq, Repr

/-- The errors `updatePageContent` can throw before any write. -/
inductive PubError
  | foreignEdit (myAccountId lastUpdatedBy : String)
  | typeConversion (fromType toType : String)
deriving DecidableEq, Repr

/-- The human-readable message of a thrown error (`e.message`); apostrophes
of the original text are elided. -/
def PubError.message : PubError → String
  | .foreignEdit me lu =>
      "Page last updated by another user. Wont publish over their changes. MyAccountId: "
        ++ me ++ ", Last Updated By: " ++ lu
  | .typeConversion f t =>
      "Cannot convert between content types. From " ++ f ++ " to " ++ t

/-- The `ancestors` field of `contentUpdateData` (lines 528-555): when the
`dontChangeParentPageId` flag is unset, a truthy frontmatter `parentPageId`
wins, otherwise the first entry of the node ancestor chain is used when
non-empty; when the flag is set, the first entry of the chain is used when
non-empty.  (`flattenTree` in `TreeConfluence.ts` supplies the chain as plain
id strings, root first; the source accesses `ancestors[0].id`, embedded here
as the first id of the chain.) -/
def contentAncestorsField (adfFile : ConfluenceAdfFile) (ancestors : List String) :
    Option (List String) :=
  if !adfFile.dontChangeParentPageId then
    if jsTruthy adfFile.parentPageId then
      some [adfFile.parentPageId.getD ""]
    else if ancestors.length > 0 then
      some [ancestors.headD ""]
    else
      none
  else
    if ancestors.length > 0 then some [ancestors.headD ""] else none

/-- The full `contentUpdateData` payload: new title, `existingVersion + 1`,
new body, `type` copied from the existing page data, plus the ancestors
field and the blogpost date when truthy. -/
def contentUpdatePayloadOf (adfFile : ConfluenceAdfFile)
    (existingPageData : ConfluencePageExistingData)
    (ancestors : List String) (pageVersionNumber : Nat) : ContentUpdatePayload :=
  { id := adfFile.pageId
    title := adfFile.pageTitle
    type := existingPageData.contentType
    spaceKey := adfFile.spaceKey
    versionNumber := pageVersionNumber + 1
    bodyAdf := adfFile.contents
    ancestors := contentAncestorsField adfFile ancestors
    blogpostWhen := if jsTruthy adfFile.blogPostDate then adfFile.blogPostDate else none }

/-- The regular content-update block of `updatePageContent`
(lines 488-585 of the current `Publisher.ts`): everything is guarded by
`!adfEqual(adfToUpload, existingPageData.adfContent)`; inside, when the two
serialisations are equal the code only updates when the title changed,
otherwise it always issues the update. -/
def regularContentUpdate (adfFile : ConfluenceAdfFile)
    (existingPageData : ConfluencePageExistingData)
    (ancestors : List String) (pageVersionNumber : Nat) :
    UpdResult × List RemoteWrite :=
  if !(adfEqual adfFile.contents existingPageData.adfContent) then
    let titleIsDifferent := adfFile.pageTitle != existingPageData.pageTitle
    let payload := contentUpdatePayloadOf adfFile existingPageData ancestors pageVersionNumber
    if jsonStringifyEq adfFile.contents existingPageData.adfContent then
      if titleIsDifferent then (.updated, [.contentUpdate payload]) else (.same, [])
    else
      (.updated, [.contentUpdate payload])
  else
    (.same, [])

/-- Lower the `updateLabels` calls to remote writes against a page id, in
program order: the batched add call first, then one remove call per label. -/
def labelWritesToRemote (pageId : String) (w : LabelWrites) : List RemoteWrite :=
  w.addCalls.map (fun ls => RemoteWrite.labelAdd pageId ls)
    ++ w.removeCalls.map (fun l => RemoteWrite.labelRemove pageId l)

/-- `Publisher.updatePageContent` of the current `Publisher.ts`
(lines 399-591), composed with `updateLabels` (line 588), as a pure function
from the per-node inputs (plus the label names fetched from the remote
object) to either a thrown error or the upload result, together with the
ordered remote writes issued.  The guard `lastUpdatedBy !== null` of the
source cannot fire here because reconciliation always produces a string. -/
def updatePageContent (caps : ClientCaps) (myAccountId : String)
    (ancestors : List String) (pageVersionNumber : Nat)
    (existingPageData : ConfluencePageExistingData)
    (adfFile : ConfluenceAdfFile) (lastUpdatedBy : String)
    (currentLabelNames : List String) :
    Except PubError UploadAdfFileResult × List RemoteWrite :=
  if lastUpdatedBy != myAccountId && lastUpdatedBy != "" then
    (.error (.foreignEdit myAccountId lastUpdatedBy), [])
  else if !(adfFile.contentType == "folder" && caps.isV2Api)
      && existingPageData.contentType != adfFile.contentType then
    (.error (.typeConversion existingPageData.contentType adfFile.contentType), [])
  else if adfFile.contentType == "folder" && caps.isV2Api && caps.v2Folders then
    -- API v2 folder handling (lines 444-485): only a title change triggers a
    -- rename, and the method returns before label reconciliation.
    if (adfFile.pageTitle != existingPageData.pageTitle) && caps.v2UpdateFolder then
      (.ok ⟨.updated, .same, .same⟩, [.folderUpdate adfFile.pageId adfFile.pageTitle])
    else
      (.ok ⟨.same, .same, .same⟩, [])
  else
    -- regular path (also taken by v2 folders when `client.v2.folders` is
    -- unavailable, in which case the source only logs an error)
    let cres := regularContentUpdate adfFile existingPageData ancestors pageVersionNumber
    let lres := updateLabels adfFile.tags currentLabelNames
    (.ok ⟨cres.1, .same, lres.1⟩, cres.2 ++ labelWritesToRemote adfFile.pageId lres.2)

/-- C5: the foreign-edit guard aborts, before any write, exactly when the
last editor is neither empty nor the current user; an empty last editor never
produces the foreign-edit error. -/
theorem claim_C5_foreign_edit_guard (caps : ClientCaps) (me : String)
    (anc : List String) (ver : Nat) (epd : ConfluencePageExistingData)
    (file : ConfluenceAdfFile) (lu : String) (cur : List String) :
    ((lu ≠ me ∧ lu ≠ "") →
      updatePageContent caps me anc ver epd file lu cur
        = (.error (.foreignEdit me lu), []))
    ∧ (lu = "" →
      ∀ a b, (updatePageContent caps me anc ver epd file lu cur).1
        ≠ .error (.foreignEdit a b)) := by
  constructor
  · rintro ⟨h1, h2⟩
    rw [updatePageContent]
    simp [h1, h2]
  · rintro rfl a b
    rw [updatePageContent]
    simp only [bne_self_eq_false, Bool.and_false, Bool.false_eq_true, if_false]
    split
    · intro h
      simp at h
    · split
      · split <;> simp
      · simp

/-- Witness for C5: a foreign last editor aborts with the foreign-edit error
and no writes; an empty last editor never yields the foreign-edit error. -/
theorem claim_C5_foreign_edit_guard_witness :
    (updatePageContent ⟨false, false, false⟩ "me" ["42"] 3
        ⟨9, "T", ["42"], "page"⟩
        ⟨"a.md", 9, "T", [], false, "p1", "SP", none, none, "page", none⟩
        "intruder" []
      = (.error (.foreignEdit "me" "intruder"), []))
    ∧ (∀ a b, (updatePageContent ⟨false, false, false⟩ "me" ["42"] 3
        ⟨9, "T", ["42"], "page"⟩
        ⟨"a.md", 9, "T", [], false, "p1", "SP", none, none, "page", none⟩
        "" []).1 ≠ .error (.foreignEdit a b)) := by
  have h := claim_C5_foreign_edit_guard ⟨false, false, false⟩ "me" ["42"] 3
    ⟨9, "T", ["42"], "page"⟩
    ⟨"a.md", 9, "T", [], false, "p1", "SP", none, none, "page", none⟩
    "intruder" []
  have h2 := claim_C5_foreign_edit_guard ⟨false, false, false⟩ "me" ["42"] 3
    ⟨9, "T", ["42"], "page"⟩
    ⟨"a.md", 9, "T", [], false, "p1", "SP", none, none, "page", none⟩
    "" []
  exact ⟨h.1 ⟨by decide, by decide⟩, h2.2 rfl⟩

/-- C7, against the code: a node whose rendered content equals the existing
content (`adfEqual`) but whose title changed gets NO content update call and
`contentResult = "same"`, because the whole update block of the current
`updatePageContent` is guarded by `!adfEqual(...)` - the title-only branch in
its body ("Only update version and/or title") is unreachable.  The claim (and
the spec) require exactly one update call here. -/
theorem claim_C7_title_only_change_not_written :
    updatePageContent ⟨false, false, false⟩ "me" ["42"] 5
        ⟨7, "Old Title", ["42"], "page"⟩
        ⟨"docs/a.md", 7, "New Title", [], false, "p1", "SP", none, none, "page", none⟩
        "me" []
      = (.ok ⟨.same, .same, .same⟩, []) := by
  rfl

/-- `ConfluenceNode` from `Publisher.ts`: the flattened reconciled node
consumed by the update phase (ancestor chain as ids, root first, as produced
by `flattenTree`). -/
structure ConfluenceNode where
  file : ConfluenceAdfFile
  version : Nat
  lastUpdatedBy : String
  existingPageData : ConfluencePageExistingData
  ancestors : List String
deriving DecidableEq, Repr

/-- `FilePublishResult` from `Publisher.ts`. -/
structure FilePublishResult where
  node : ConfluenceNode
  successfulUploadResult : Option UploadAdfFileResult
  reason : Option String
deriving DecidableEq, Repr

/-- `Publisher.publishFile` (lines 355-397): runs `updatePageContent` for one
node and converts a thrown error into a per-node failure record carrying the
error message, never rethrowing.  `labelsOf` supplies the remote label fetch
for a page id. -/
def publishFile (caps : ClientCaps) (me : String)
    (labelsOf : String → List String) (node : ConfluenceNode) : FilePublishResult :=
  match (updatePageContent caps me node.ancestors node.version node.existingPageData
      node.file node.lastUpdatedBy (labelsOf node.file.pageId)).1 with
  | .ok r => ⟨node, some r, none⟩
  | .error e => ⟨node, none, some e.message⟩

/-- The update phase of `Publisher.publish` (lines 323-345): one
`publishFile` task per reconciled node, joined by `Promise.all` (each task
resolves, never rejects, so the join cannot throw). -/
def publishUpdatePhase (caps : ClientCaps) (me : String)
    (labelsOf : String → List String) (nodes : List ConfluenceNode) :
    List FilePublishResult :=
  nodes.map (publishFile caps me labelsOf)

/-- C2: the update phase returns exactly one record per node, the record at
index `i` is exactly `publishFile` of node `i` (unaffected by other nodes),
every record carries exactly one of `successfulUploadResult`/`reason`, and a
node whose update throws gets the error message as its `reason`. -/
theorem claim_C2_partial_failure_isolation (caps : ClientCaps) (me : String)
    (labelsOf : String → List String) (nodes : List ConfluenceNode) :
    (publishUpdatePhase caps me labelsOf nodes).length = nodes.length
    ∧ (∀ i : Nat, (publishUpdatePhase caps me labelsOf nodes)[i]?
        = (nodes[i]?).map (publishFile caps me labelsOf))
    ∧ (∀ r ∈ publishUpdatePhase caps me labelsOf nodes,
        (r.successfulUploadResult.isSome ∧ r.reason = none)
        ∨ (r.successfulUploadResult = none ∧ r.reason.isSome))
    ∧ (∀ node e,
        (updatePageContent caps me node.ancestors node.version node.existingPageData
          node.file node.lastUpdatedBy (labelsOf node.file.pageId)).1 = .error e →
        publishFile caps me labelsOf node = ⟨node, none, some e.message⟩) := by
  refine ⟨by simp [publishUpdatePhase], ?_, ?_, ?_⟩
  · intro i
    simp [publishUpdatePhase, List.getElem?_map]
  · intro r hr
    simp only [publishUpdatePhase, List.mem_map] at hr
    obtain ⟨node, _, rfl⟩ := hr
    rw [publishFile]
    split <;> simp
  · intro node e he
    rw [publishFile, he]

/-- Witness for C2: three concrete reconciled nodes where the second aborts
on the foreign-edit guard - three records, the middle one carrying the error
message as its reason, the records of the other nodes computed independently
of it. -/
theorem claim_C2_partial_failure_isolation_witness :
    (publishUpdatePhase ⟨false, false, false⟩ "me" (fun _ => [])
        [⟨⟨"a.md", 1, "A", [], false, "p1", "SP", none, none, "page", none⟩, 3, "me",
            ⟨1, "A", [], "page"⟩, ["100"]⟩,
         ⟨⟨"b.md", 1, "B", [], false, "p2", "SP", none, none, "page", none⟩, 3, "intruder",
            ⟨1, "B", [], "page"⟩, ["100"]⟩,
         ⟨⟨"c.md", 2, "C", [], false, "p3", "SP", none, none, "page", none⟩, 3, "me",
            ⟨1, "C", [], "page"⟩, ["100"]⟩]).length
      = ([⟨⟨"a.md", 1, "A", [], false, "p1", "SP", none, none, "page", none⟩, 3, "me",
            ⟨1, "A", [], "page"⟩, ["100"]⟩,
          ⟨⟨"b.md", 1, "B", [], false, "p2", "SP", none, none, "page", none⟩, 3, "intruder",
            ⟨1, "B", [], "page"⟩, ["100"]⟩,
          ⟨⟨"c.md", 2, "C", [], false, "p3", "SP", none, none, "page", none⟩, 3, "me",
            ⟨1, "C", [], "page"⟩, ["100"]⟩] : List ConfluenceNode).length
    ∧ (((publishFile ⟨false, false, false⟩ "me" (fun _ => [])
          ⟨⟨"b.md", 1, "B", [], false, "p2", "SP", none, none, "page", none⟩, 3, "intruder",
            ⟨1, "B", [], "page"⟩, ["100"]⟩).successfulUploadResult.isSome
        ∧ (publishFile ⟨false, false, false⟩ "me" (fun _ => [])
          ⟨⟨"b.md", 1, "B", [], false, "p2", "SP", none, none, "page", none⟩, 3, "intruder",
            ⟨1, "B", [], "page"⟩, ["100"]⟩).reason = none)
      ∨ ((publishFile ⟨false, false, false⟩ "me" (fun _ => [])
          ⟨⟨"b.md", 1, "B", [], false, "p2", "SP", none, none, "page", none⟩, 3, "intruder",
            ⟨1, "B", [], "page"⟩, ["100"]⟩).successfulUploadResult = none
        ∧ (publishFile ⟨false, false, false⟩ "me" (fun _ => [])
          ⟨⟨"b.md", 1, "B", [], false, "p2", "SP", none, none, "page", none⟩, 3, "intruder",
            ⟨1, "B", [], "page"⟩, ["100"]⟩).reason.isSome))
    ∧ publishFile ⟨false, false, false⟩ "me" (fun _ => [])
        ⟨⟨"b.md", 1, "B", [], false, "p2", "SP", none, none, "page", none⟩, 3, "intruder",
          ⟨1, "B", [], "page"⟩, ["100"]⟩
      = ⟨⟨⟨"b.md", 1, "B", [], false, "p2", "SP", none, none, "page", none⟩, 3, "intruder",
          ⟨1, "B", [], "page"⟩, ["100"]⟩, none,
         some ((PubError.foreignEdit "me" "intruder").message)⟩ := by
  have h := claim_C2_partial_failure_isolation ⟨false, false, false⟩ "me" (fun _ => [])
    [⟨⟨"a.md", 1, "A", [], false, "p1", "SP", none, none, "page", none⟩, 3, "me",
        ⟨1, "A", [], "page"⟩, ["100"]⟩,
     ⟨⟨"b.md", 1, "B", [], false, "p2", "SP", none, none, "page", none⟩, 3, "intruder",
        ⟨1, "B", [], "page"⟩, ["100"]⟩,
     ⟨⟨"c.md", 2, "C", [], false, "p3", "SP", none, none, "page", none⟩, 3, "me",
        ⟨1, "C", [], "page"⟩, ["100"]⟩]
  refine ⟨h.1, ?_, ?_⟩
  · exact h.2.2.1 _ (by simp [publishUpdatePhase])
  · exact h.2.2.2 _ (PubError.foreignEdit "me" "intruder") rfl

/-- `LocalAdfFile` from `Publisher.ts`, the per-document payload handed to
reconciliation (`pageId` is the remembered remote identity, possibly stale or
absent). -/
structure LocalAdfFile where
  absoluteFilePath : String
  contents : AdfDoc
  pageTitle : String
  tags : List String
  pageId : Option String
  parentPageId : Option String
  parentFolderId : Option String
  dontChangeParentPageId : Bool
  contentType : String
  blogPostDate : Option String
deriving DecidableEq, Repr

/-- A remote content record as returned by the Confluence content API
(fields that the source reads through optional chaining are `Option`s). -/
structure RemotePage where
  id : String
  title : String
  versionNumber : Option Nat
  versionBy : Option String
  bodyAdf : Option AdfDoc
  spaceKey : Option String
  ancestors : List String
  type : String
deriving DecidableEq, Repr

/-- The `creatingBlankPageRequest` built by `ensurePageExists`
(lines 321-336 of `TreeConfluence.ts`); the body is always the blank
"Page not published yet" document, so it is not recorded. -/
structure CreateReq where
  spaceKey : String
  ancestors : List String
  title : String
  type : String
deriving DecidableEq, Repr

/-- Deterministic environment for one reconciliation pass, modelling the
remote Confluence instance with no concurrent edits: fetch-by-id (`none`
models the HTTP 404 rejection), search-by-title (type, space key, title),
and the record returned by a create call. -/
structure RemoteEnv where
  byId : String → Option RemotePage
  searchByTitle : String → String → String → List RemotePage
  create : CreateReq → RemotePage

/-- An adaptor/remote call recorded during reconciliation, in program order;
`persist` is `adaptor.updateMarkdownValues`, tagged with the source file the
call concerns. -/
inductive REvent
  | getById (srcPath id : String)
  | persist (srcPath : String) (publish : Bool) (pageId : Option String)
  | search (srcPath ctype spaceKey title : String)
  | verifyParent (srcPath parentId : String)
  | createContent (srcPath : String) (req : CreateReq)
deriving DecidableEq, Repr

/-- The source file an event concerns. -/
def REvent.srcPathOf : REvent → String
  | .getById p _ => p
  | .persist p _ _ => p
  | .search p _ _ _ => p
  | .verifyParent p _ => p
  | .createContent p _ => p

/-- Whether an event mutates state (local front-matter persistence or a
remote create); fetches and searches are reads. -/
def REvent.isWrite : REvent → Bool
  | .persist _ _ _ => true
  | .createContent _ _ => true
  | _ => false

/-- The record returned by `ensurePageExists`. -/
structure PageDetails where
  id : String
  title : String
  version : Nat
  lastUpdatedBy : String
  existingAdf : Option AdfDoc
  spaceKey : String
  pageTitle : String
  ancestors : List String
  contentType : String
deriving DecidableEq, Repr

/-- The errors thrown during reconciliation. -/
inductive RecError
  | missingSpaceKey
  | notFound (id : String)
  | outsideTopPage (title : String)
  | missingFileOnNode
  | noParentPageId (srcPath : String)
deriving DecidableEq, Repr

/-- `ensurePageExists` of the current `TreeConfluence.ts` (lines 191-417):
fetch by remembered id when present (on HTTP 404 the catch persists
`publish: false, pageId: undefined` and then RETHROWS the error); otherwise
search by title, enforcing the top-page boundary only for `"page"` content,
and create a blank page when the search is empty (with an ancestor only for
`"page"` content with a truthy trimmed parent id, preceded by a best-effort
parent verification fetch whose failure is swallowed). -/
def ensurePageExists (env : RemoteEnv) (file : LocalAdfFile) (spaceKey : String)
    (parentPageId : Option String) (topPageId : Option String) :
    Except RecError PageDetails × List REvent :=
  let path := file.absoluteFilePath
  if jsTruthy file.pageId then
    let pid := file.pageId.getD ""
    match env.byId pid with
    | some contentById =>
        if !(jsTruthy contentById.spaceKey) then
          (.error .missingSpaceKey, [.getById path pid])
        else
          (.ok { id := contentById.id
                 title := file.pageTitle
                 version := contentById.versionNumber.getD 1
                 lastUpdatedBy := contentById.versionBy.getD "NO ACCOUNT ID"
                 existingAdf := contentById.bodyAdf
                 spaceKey := contentById.spaceKey.getD ""
                 pageTitle := contentById.title
                 ancestors := contentById.ancestors
                 contentType := contentById.type },
           [.getById path pid, .persist path true (some contentById.id)])
    | none =>
        (.error (.notFound pid), [.getById path pid, .persist path false none])
  else
    let results := env.searchByTitle file.contentType spaceKey file.pageTitle
    let searchEv := REvent.search path file.contentType spaceKey file.pageTitle
    match results.head? with
    | some currentPage =>
        if jsTruthy topPageId && file.contentType == "page"
            && !(currentPage.ancestors.contains (topPageId.getD "")) then
          (.error (.outsideTopPage file.pageTitle), [searchEv])
        else
          (.ok { id := currentPage.id
                 title := file.pageTitle
                 version := currentPage.versionNumber.getD 1
                 lastUpdatedBy := currentPage.versionBy.getD "NO ACCOUNT ID"
                 existingAdf := currentPage.bodyAdf
                 spaceKey := spaceKey
                 pageTitle := currentPage.title
                 ancestors := currentPage.ancestors
                 contentType := currentPage.type },
           [searchEv, .persist path true (some currentPage.id)])
    | none =>
        let withAncestor := file.contentType == "page" && jsTruthyTrim parentPageId
        let req : CreateReq :=
          { spaceKey := spaceKey
            ancestors := if withAncestor then [parentPageId.getD ""] else []
            title := file.pageTitle
            type := file.contentType }
        let verifyEvs : List REvent :=
          if withAncestor then [.verifyParent path (parentPageId.getD "")] else []
        let pageDetails := env.create req
        (.ok { id := pageDetails.id
               title := file.pageTitle
               version := pageDetails.versionNumber.getD 1
               lastUpdatedBy := pageDetails.versionBy.getD "NO ACCOUNT ID"
               existingAdf := pageDetails.bodyAdf
               spaceKey := spaceKey
               pageTitle := pageDetails.title
               ancestors := pageDetails.ancestors
               contentType := pageDetails.type },
         [searchEv] ++ verifyEvs ++ [.createContent path req, .persist path true (some pageDetails.id)])

/-- C10: for a blogpost node, a title-search match whose ancestor chain does
not include the top page is nevertheless adopted: no error, its id is
persisted via `updateMarkdownValues`, and the returned details carry the
found page id. -/
theorem claim_C10_blogpost_skips_boundary (env : RemoteEnv) (file : LocalAdfFile)
    (spaceKey : String) (parentPageId : Option String) (topPageId : String)
    (p : RemotePage)
    (hct : file.contentType = "blogpost")
    (hnoid : jsTruthy file.pageId = false)
    (hfound : (env.searchByTitle file.contentType spaceKey file.pageTitle).head? = some p)
    (_hout : p.ancestors.contains topPageId = false) :
    (ensurePageExists env file spaceKey parentPageId (some topPageId)).1
      = .ok { id := p.id
              title := file.pageTitle
              version := p.versionNumber.getD 1
              lastUpdatedBy := p.versionBy.getD "NO ACCOUNT ID"
              existingAdf := p.bodyAdf
              spaceKey := spaceKey
              pageTitle := p.title
              ancestors := p.ancestors
              contentType := p.type }
    ∧ REvent.persist file.absoluteFilePath true (some p.id)
        ∈ (ensurePageExists env file spaceKey parentPageId (some topPageId)).2 := by
  have hfound' : (env.searchByTitle "blogpost" spaceKey file.pageTitle).head? = some p := by
    rw [← hct]; exact hfound
  rw [ensurePageExists]
  simp only [hnoid, Bool.false_eq_true, if_false, hct, hfound']
  simp

/-- Witness for C10 at a concrete blogpost node and environment. -/
theorem claim_C10_blogpost_skips_boundary_witness :
    (ensurePageExists
        ⟨fun _ => none,
         fun _ _ _ => [⟨"99", "guide", some 4, some "me", some 11, some "SP", ["7"], "blogpost"⟩],
         fun _ => ⟨"new", "t", none, none, none, none, [], "blogpost"⟩⟩
        ⟨"b.md", 3, "guide", [], none, none, none, false, "blogpost", some "2024-01-01"⟩
        "SP" (some "100") (some "42")).1
      = .ok ⟨"99", "guide", 4, "me", some 11, "SP", "guide", ["7"], "blogpost"⟩
    ∧ REvent.persist "b.md" true (some "99")
        ∈ (ensurePageExists
            ⟨fun _ => none,
             fun _ _ _ => [⟨"99", "guide", some 4, some "me", some 11, some "SP", ["7"], "blogpost"⟩],
             fun _ => ⟨"new", "t", none, none, none, none, [], "blogpost"⟩⟩
            ⟨"b.md", 3, "guide", [], none, none, none, false, "blogpost", some "2024-01-01"⟩
            "SP" (some "100") (some "42")).2 := by
  exact claim_C10_blogpost_skips_boundary
    ⟨fun _ => none,
     fun _ _ _ => [⟨"99", "guide", some 4, some "me", some 11, some "SP", ["7"], "blogpost"⟩],
     fun _ => ⟨"new", "t", none, none, none, none, [], "blogpost"⟩⟩
    ⟨"b.md", 3, "guide", [], none, none, none, false, "blogpost", some "2024-01-01"⟩
    "SP" (some "100") "42"
    ⟨"99", "guide", some 4, some "me", some 11, some "SP", ["7"], "blogpost"⟩
    rfl rfl rfl rfl

/-- Counterexample to C4 as stated: a node (contentType `"blogpost"`) with a
non-null `topPageId = "42"` whose title search returns a page with ancestor
chain `["7"]` (not containing `"42"`) does NOT make reconciliation throw -
the found page is adopted and its id persisted. -/
theorem claim_C4_counterexample :
    ensurePageExists
        ⟨fun _ => none,
         fun _ _ _ => [⟨"99", "guide", some 4, some "me", some 11, some "SP", ["7"], "blogpost"⟩],
         fun _ => ⟨"new", "t", none, none, none, none, [], "blogpost"⟩⟩
        ⟨"b.md", 3, "guide", [], none, none, none, false, "blogpost", some "2024-01-01"⟩
        "SP" (some "100") (some "42")
      = (.ok ⟨"99", "guide", 4, "me", some 11, "SP", "guide", ["7"], "blogpost"⟩,
         [.search "b.md" "blogpost" "SP" "guide", .persist "b.md" true (some "99")]) := by
  rfl

/-- C4 amended to page-type nodes: for a `"page"` node with a truthy
`topPageId`, a title-search match whose ancestor chain does not include the
top page makes reconciliation throw before any write (the trace holds only
the search read; no `updateMarkdownValues`, no create). -/
theorem claim_C4_title_boundary_pages (env : RemoteEnv) (file : LocalAdfFile)
    (spaceKey : String) (parentPageId : Option String) (topPageId : String)
    (p : RemotePage)
    (hct : file.contentType = "page")
    (htop : topPageId ≠ "")
    (hnoid : jsTruthy file.pageId = false)
    (hfound : (env.searchByTitle file.contentType spaceKey file.pageTitle).head? = some p)
    (hout : p.ancestors.contains topPageId = false) :
    ensurePageExists env file spaceKey parentPageId (some topPageId)
      = (.error (.outsideTopPage file.pageTitle),
         [.search file.absoluteFilePath file.contentType spaceKey file.pageTitle])
    ∧ ∀ e ∈ (ensurePageExists env file spaceKey parentPageId (some topPageId)).2,
        e.isWrite = false := by
  have hfound' : (env.searchByTitle "page" spaceKey file.pageTitle).head? = some p := by
    rw [← hct]; exact hfound
  have hout' : topPageId ∉ p.ancestors := by simpa using hout
  have hj : jsTruthy (some topPageId) = true := by simp [jsTruthy, htop]
  rw [ensurePageExists]
  simp only [hnoid, Bool.false_eq_true, if_false, hct, hfound']
  simp [hj, hout', REvent.isWrite]

/-- Witness for the amended C4 at a concrete page node and environment. -/
theorem claim_C4_title_boundary_pages_witness :
    ensurePageExists
        ⟨fun _ => none,
         fun _ _ _ => [⟨"99", "guide", some 4, some "me", some 11, some "SP", ["7"], "page"⟩],
         fun _ => ⟨"new", "t", none, none, none, none, [], "page"⟩⟩
        ⟨"g.md", 3, "guide", [], none, none, none, false, "page", none⟩
        "SP" (some "100") (some "42")
      = (.error (.outsideTopPage "guide"), [.search "g.md" "page" "SP" "guide"])
    ∧ ∀ e ∈ (ensurePageExists
        ⟨fun _ => none,
         fun _ _ _ => [⟨"99", "guide", some 4, some "me", some 11, some "SP", ["7"], "page"⟩],
         fun _ => ⟨"new", "t", none, none, none, none, [], "page"⟩⟩
        ⟨"g.md", 3, "guide", [], none, none, none, false, "page", none⟩
        "SP" (some "100") (some "42")).2, e.isWrite = false := by
  exact claim_C4_title_boundary_pages
    ⟨fun _ => none,
     fun _ _ _ => [⟨"99", "guide", some 4, some "me", some 11, some "SP", ["7"], "page"⟩],
     fun _ => ⟨"new", "t", none, none, none, none, [], "page"⟩⟩
    ⟨"g.md", 3, "guide", [], none, none, none, false, "page", none⟩
    "SP" (some "100") "42"
    ⟨"99", "guide", some 4, some "me", some 11, some "SP", ["7"], "page"⟩
    rfl (by decide) rfl rfl rfl

/-- C6, against the code: for a node with remembered `pageId = "123"` whose
fetch-by-id returns HTTP 404, `ensurePageExists` persists
`publish: false, pageId: undefined` (clearing the remembered id) and then
RETHROWS - the trace contains no title-search event and the node (hence the
whole run) aborts, although the code itself logs "Page with ID 123 not
found, will create a new page". -/
theorem claim_C6_404_aborts_instead_of_falling_through :
    ensurePageExists
        ⟨fun _ => none,
         fun _ _ _ => [],
         fun _ => ⟨"new", "t", none, none, none, none, [], "page"⟩⟩
        ⟨"a.md", 3, "Title", [], some "123", none, none, false, "page", none⟩
        "SP" (some "100") (some "42")
      = (.error (.notFound "123"),
         [.getById "a.md" "123", .persist "a.md" false none]) := by
  rfl

/-- `LocalAdfFileTreeNode` from `Publisher.ts`: the local tree, one node per
directory level, optionally carrying a file payload. -/
inductive LocalAdfFileTreeNode where
  | mk (name : String) (children : List LocalAdfFileTreeNode) (file : Option LocalAdfFile)

/-- The empty ADF document (`doc(p())`, and the parse fallback for a missing
`existingAdf`). -/
def emptyAdf : AdfDoc := 0

/-- `ConfluenceTreeNode` as built by `createFileStructureInConfluence`: the
resolved file identity plus the recorded existing page data and children. -/
inductive ConfluenceTreeNode where
  | mk (filePageId fileSpaceKey pageUrl : String) (version : Nat)
      (lastUpdatedBy : String) (adfContent : AdfDoc) (pageTitle : String)
      (ancestors : List String) (contentType : String)
      (children : List ConfluenceTreeNode)

/-- The `effectiveParentPageId` computation of
`createFileStructureInConfluence` (lines 112-114): a trimmed-truthy per-file
`parentPageId` wins over the threaded parent parameter, else `null`. -/
def effectiveParentPageIdOf (f : LocalAdfFile) (parentPageId : Option String) :
    Option String :=
  if jsTruthyTrim f.parentPageId then f.parentPageId
  else if jsTruthyTrim parentPageId then parentPageId
  else none

/-- The `topPageId || effectiveParentPageId` argument threaded to
`ensurePageExists` and to the children (lines 133 and 168). -/
def effectiveTopPageId (topPageId effParent : Option String) : Option String :=
  if jsTruthy topPageId then topPageId else effParent

/-- Join of the child results as `Promise.all`: the first rejection (in
order) wins, otherwise the list of fulfilled values. -/
def collectChildren :
    List (Except RecError ConfluenceTreeNode) → Except RecError (List ConfluenceTreeNode)
  | [] => .ok []
  | .error e :: _ => .error e
  | .ok t :: rest => (collectChildren rest).map (fun ts => t :: ts)

/-- `createFileStructureInConfluence` of the current `TreeConfluence.ts`
(lines 83-189): resolve this node via `ensurePageExists` (when `createPage`),
then recurse into every child threading the freshly resolved page id as the
parent.  The `await` on `ensurePageExists` completes - including its
`updateMarkdownValues` persistence - before any child task is created; the
children (`Promise.all` in the source) are serialised left to right here, all
child runs contributing their events after the parent events. -/
def createFileStructureInConfluence (env : RemoteEnv) (baseUrl : String) :
    LocalAdfFileTreeNode → String → Option String → Option String → Bool →
    Except RecError ConfluenceTreeNode × List REvent
  | .mk _name children fileOpt, spaceKey, parentPageId, topPageId, createPage =>
    match fileOpt with
    | none => (.error .missingFileOnNode, [])
    | some f =>
      let effParent := effectiveParentPageIdOf f parentPageId
      if createPage && effParent.isNone then
        (.error (.noParentPageId f.absoluteFilePath), [])
      else
        let newTop := effectiveTopPageId topPageId effParent
        if createPage then
          match ensurePageExists env f spaceKey effParent newTop with
          | (.error e, evs) => (.error e, evs)
          | (.ok d, evs) =>
            let childRuns := children.attach.map
              (fun c => createFileStructureInConfluence env baseUrl c.1 spaceKey
                (some d.id) newTop true)
            let childEvs := (childRuns.map Prod.snd).flatten
            let pageUrl := baseUrl ++ "/wiki/spaces/" ++ spaceKey ++ "/pages/" ++ d.id ++ "/"
            match collectChildren (childRuns.map Prod.fst) with
            | .error e => (.error e, evs ++ childEvs)
            | .ok ts =>
                (.ok (.mk d.id d.spaceKey pageUrl d.version d.lastUpdatedBy
                    (d.existingAdf.getD emptyAdf) d.pageTitle d.ancestors d.contentType ts),
                 evs ++ childEvs)
        else
          let fileId := f.pageId.getD ""
          let childRuns := children.attach.map
            (fun c => createFileStructureInConfluence env baseUrl c.1 spaceKey
              (some fileId) newTop true)
          let childEvs := (childRuns.map Prod.snd).flatten
          let pageUrl := baseUrl ++ "/wiki/spaces/" ++ spaceKey ++ "/pages/" ++ fileId ++ "/"
          match collectChildren (childRuns.map Prod.fst) with
          | .error e => (.error e, childEvs)
          | .ok ts => (.ok (.mk fileId spaceKey pageUrl 0 "" emptyAdf "" [] "page" ts), childEvs)
termination_by n _ _ _ _ => sizeOf n
decreasing_by
  all_goals
    simp_wf
    have h1 := List.sizeOf_lt_of_mem c.2
    omega

/-- A successful `ensurePageExists` always persists the resolved id
(`publish: true`) through `updateMarkdownValues`, and every event of its
trace concerns the file being reconciled. -/
theorem ensurePageExists_ok_persists (env : RemoteEnv) (file : LocalAdfFile)
    (spaceKey : String) (parentPageId topPageId : Option String)
    (d : PageDetails) (evs : List REvent)
    (h : ensurePageExists env file spaceKey parentPageId topPageId = (.ok d, evs)) :
    REvent.persist file.absoluteFilePath true (some d.id) ∈ evs
    ∧ ∀ e ∈ evs, e.srcPathOf = file.absoluteFilePath := by
  simp only [ensurePageExists] at h
  split at h
  · -- remembered id: fetch by id
    split at h
    · split at h
      · exact absurd h (by simp)
      · rw [Prod.mk.injEq] at h
        obtain ⟨h1, h2⟩ := h
        injection h1 with h1
        subst h1; subst h2
        refine ⟨by simp, ?_⟩
        intro e he
        simp only [List.mem_cons, List.not_mem_nil, or_false] at he
        rcases he with rfl | rfl <;> rfl
    · exact absurd h (by simp)
  · -- no remembered id: title search
    split at h
    · split at h
      · exact absurd h (by simp)
      · rw [Prod.mk.injEq] at h
        obtain ⟨h1, h2⟩ := h
        injection h1 with h1
        subst h1; subst h2
        refine ⟨by simp, ?_⟩
        intro e he
        simp only [List.mem_cons, List.not_mem_nil, or_false] at he
        rcases he with rfl | rfl <;> rfl
    · -- not found by title: create
      rw [Prod.mk.injEq] at h
      obtain ⟨h1, h2⟩ := h
      injection h1 with h1
      subst h1; subst h2
      constructor
      · simp
      · intro e he
        simp only [List.cons_append, List.singleton_append, List.mem_cons, List.mem_append,
          List.not_mem_nil, or_false] at he
        rcases he with rfl | he | rfl | rfl
        · rfl
        · split at he
          · simp only [List.mem_singleton, List.mem_cons, List.not_mem_nil, false_or,
              or_false] at he
            subst he; rfl
          · simp at he
        · rfl
        · rfl

/-- C3: for a brand-new node (no remembered id) whose remote object is
created or found by `ensurePageExists` (events `evs`, details `d`), the full
tree walk first emits exactly `evs` - which contains the
`updateMarkdownValues` persistence of the newly resolved id `d.id`, and whose
events all concern this node - and only afterwards any child event: the walk
trace is `evs ++ rest`. -/
theorem claim_C3_identity_persistence (env : RemoteEnv) (baseUrl name : String)
    (children : List LocalAdfFileTreeNode) (f : LocalAdfFile)
    (spaceKey : String) (parentPageId topPageId : Option String)
    (d : PageDetails) (evs : List REvent)
    (_hnew : jsTruthy f.pageId = false)
    (hpar : (effectiveParentPageIdOf f parentPageId).isSome = true)
    (hok : ensurePageExists env f spaceKey (effectiveParentPageIdOf f parentPageId)
        (effectiveTopPageId topPageId (effectiveParentPageIdOf f parentPageId))
        = (.ok d, evs)) :
    (∃ rest, (createFileStructureInConfluence env baseUrl
        (.mk name children (some f)) spaceKey parentPageId topPageId true).2
        = evs ++ rest)
    ∧ REvent.persist f.absoluteFilePath true (some d.id) ∈ evs
    ∧ ∀ e ∈ evs, e.srcPathOf = f.absoluteFilePath := by
  refine ⟨?_, (ensurePageExists_ok_persists env f spaceKey _ _ d evs hok).1,
    (ensurePageExists_ok_persists env f spaceKey _ _ d evs hok).2⟩
  have hisnone : (effectiveParentPageIdOf f parentPageId).isNone = false := by
    rcases h' : effectiveParentPageIdOf f parentPageId with _ | v
    · rw [h'] at hpar; simp at hpar
    · rfl
  simp only [createFileStructureInConfluence, hisnone, Bool.and_false, Bool.false_eq_true,
    if_false, if_true, hok]
  split
  · exact ⟨_, rfl⟩
  · exact ⟨_, rfl⟩

/-- Witness for C3: a brand-new folder-note root `docs/docs.md` under parent
`100` with one child; the persistence of the created id `500` happens in the
parent trace, before all child events. -/
theorem claim_C3_identity_persistence_witness :
    (∃ rest, (createFileStructureInConfluence
        ⟨fun _ => none, fun _ _ _ => [],
         fun req => ⟨"500", req.title, some 1, some "me", none, some "SP", req.ancestors, req.type⟩⟩
        "https://example" (.mk "docs"
          [.mk "guide" [] (some ⟨"docs/guide.md", 4, "guide", ["howto"], none, none, none,
            false, "page", none⟩)]
          (some ⟨"docs/docs.md", 3, "docs", [], none, some "100", none, false, "page", none⟩))
        "SP" none none true).2
      = [.search "docs/docs.md" "page" "SP" "docs",
         .verifyParent "docs/docs.md" "100",
         .createContent "docs/docs.md" ⟨"SP", ["100"], "docs", "page"⟩,
         .persist "docs/docs.md" true (some "500")] ++ rest)
    ∧ REvent.persist "docs/docs.md" true (some "500")
        ∈ [REvent.search "docs/docs.md" "page" "SP" "docs",
           .verifyParent "docs/docs.md" "100",
           .createContent "docs/docs.md" ⟨"SP", ["100"], "docs", "page"⟩,
           .persist "docs/docs.md" true (some "500")]
    ∧ ∀ e ∈ [REvent.search "docs/docs.md" "page" "SP" "docs",
           REvent.verifyParent "docs/docs.md" "100",
           REvent.createContent "docs/docs.md" ⟨"SP", ["100"], "docs", "page"⟩,
           REvent.persist "docs/docs.md" true (some "500")],
        e.srcPathOf = "docs/docs.md" := by
  exact claim_C3_identity_persistence
    ⟨fun _ => none, fun _ _ _ => [],
     fun req => ⟨"500", req.title, some 1, some "me", none, some "SP", req.ancestors, req.type⟩⟩
    "https://example" "docs"
    [.mk "guide" [] (some ⟨"docs/guide.md", 4, "guide", ["howto"], none, none, none,
      false, "page", none⟩)]
    ⟨"docs/docs.md", 3, "docs", [], none, some "100", none, false, "page", none⟩
    "SP" none none
    ⟨"500", "docs", 1, "me", none, "SP", "docs", ["100"], "page"⟩
    [.search "docs/docs.md" "page" "SP" "docs",
     .verifyParent "docs/docs.md" "100",
     .createContent "docs/docs.md" ⟨"SP", ["100"], "docs", "page"⟩,
     .persist "docs/docs.md" true (some "500")]
    rfl rfl rfl

/-- The stored remote state of one page/folder between runs (single node, no
concurrent editors). -/
structure RemoteDoc where
  content : AdfDoc
  title : String
  labels : List String
  version : Nat
  lastUpdatedBy : String
  contentType : String
  ancestors : List String
deriving DecidableEq, Repr

/-- Backend semantics of one remote write on the stored record, given no
concurrent edits: a content update stores the sent body/title/version with
the caller as the new last editor; a v2 folder rename stores the title; label
calls append or remove label names.  This models the Confluence backend the
repository consumes through `RequiredConfluenceClient`. -/
def applyWrite (me : String) (r : RemoteDoc) : RemoteWrite → RemoteDoc
  | .contentUpdate p =>
      { r with
        content := p.bodyAdf
        title := p.title
        version := p.versionNumber
        lastUpdatedBy := me }
  | .folderUpdate _ t => { r with title := t, lastUpdatedBy := me }
  | .labelAdd _ ls => { r with labels := r.labels ++ ls }
  | .labelRemove _ l => { r with labels := r.labels.filter (fun x => x != l) }

/-- Apply a run's writes to the stored record, in order. -/
def stepRemote (me : String) (r : RemoteDoc) (ws : List RemoteWrite) : RemoteDoc :=
  ws.foldl (applyWrite me) r

/-- One reconcile-and-update cycle for a single already-identified node:
reconciliation fetches the stored record by its remembered id
(`ensurePageExists`, fetch-by-id branch, `TreeConfluence.ts` lines 204-241)
and packages the observed version, last editor and existing page data
(lines 135-142), which `updatePageContent` then consumes together with the
remote labels it fetches. -/
def runCycle (caps : ClientCaps) (me : String) (anc : List String)
    (file : ConfluenceAdfFile) (r : RemoteDoc) :
    Except PubError UploadAdfFileResult × List RemoteWrite :=
  updatePageContent caps me anc r.version
    ⟨r.content, r.title, r.ancestors, r.contentType⟩ file r.lastUpdatedBy r.labels

theorem stepRemote_append (me : String) (r : RemoteDoc) (ws1 ws2 : List RemoteWrite) :
    stepRemote me r (ws1 ++ ws2) = stepRemote me (stepRemote me r ws1) ws2 :=
  List.foldl_append _ _ _ _

/-- Label calls leave every non-label field of the stored record unchanged. -/
def RemoteWrite.isLabelOnly : RemoteWrite → Bool
  | .labelAdd _ _ => true
  | .labelRemove _ _ => true
  | _ => false

theorem stepRemote_labelOnly (me : String) :
    ∀ (ws : List RemoteWrite) (r : RemoteDoc), (∀ w ∈ ws, w.isLabelOnly = true) →
      (stepRemote me r ws).content = r.content
      ∧ (stepRemote me r ws).title = r.title
      ∧ (stepRemote me r ws).version = r.version
      ∧ (stepRemote me r ws).lastUpdatedBy = r.lastUpdatedBy
      ∧ (stepRemote me r ws).contentType = r.contentType := by
  intro ws
  induction ws with
  | nil => exact fun r _ => ⟨rfl, rfl, rfl, rfl, rfl⟩
  | cons w ws ih =>
      intro r h
      have hw := h w (List.mem_cons_self _ _)
      have hrest := ih (applyWrite me r w) (fun x hx => h x (List.mem_cons_of_mem _ hx))
      cases w with
      | labelAdd pid ls => simpa [stepRemote, applyWrite] using hrest
      | labelRemove pid l => simpa [stepRemote, applyWrite] using hrest
      | contentUpdate p => simp [RemoteWrite.isLabelOnly] at hw
      | folderUpdate a b => simp [RemoteWrite.isLabelOnly] at hw

theorem mem_stepRemote_removes (me pid : String) :
    ∀ (rs : List String) (r : RemoteDoc) (x : String),
      x ∈ (stepRemote me r (rs.map (RemoteWrite.labelRemove pid))).labels
        ↔ x ∈ r.labels ∧ x ∉ rs := by
  intro rs
  induction rs with
  | nil => simp [stepRemote]
  | cons a rs ih =>
      intro r x
      have hstep : stepRemote me r ((a :: rs).map (RemoteWrite.labelRemove pid))
          = stepRemote me (applyWrite me r (.labelRemove pid a))
              (rs.map (RemoteWrite.labelRemove pid)) := rfl
      rw [hstep, ih]
      simp only [applyWrite, List.mem_filter, List.mem_cons, bne_iff_ne, ne_eq,
        decide_eq_true_eq]
      constructor
      · rintro ⟨⟨hmem, hne⟩, hnin⟩
        exact ⟨hmem, fun hc => hc.elim hne hnin⟩
      · rintro ⟨hmem, hnin⟩
        exact ⟨⟨hmem, fun hc => hnin (Or.inl hc)⟩, fun hc => hnin (Or.inr hc)⟩

/-- After the label writes that `updateLabels` computed against the stored
labels, the stored label set is exactly the tag set. -/
theorem mem_labels_after_updateLabels (me pid : String) (tags cur : List String)
    (r0 : RemoteDoc) (hcur : r0.labels = cur) (x : String) :
    x ∈ (stepRemote me r0 (labelWritesToRemote pid (updateLabels tags cur).2)).labels
      ↔ x ∈ tags := by
  have hsplit : labelWritesToRemote pid (updateLabels tags cur).2
      = ((if (labelsToAdd tags cur).length > 0 then [labelsToAdd tags cur] else []).map
          (RemoteWrite.labelAdd pid))
        ++ ((labelsToRemove tags cur).map (RemoteWrite.labelRemove pid)) := rfl
  rw [hsplit, stepRemote_append]
  have haddlabels :
      (stepRemote me r0 ((if (labelsToAdd tags cur).length > 0
          then [labelsToAdd tags cur] else []).map (RemoteWrite.labelAdd pid))).labels
        = cur ++ labelsToAdd tags cur := by
    by_cases h : (labelsToAdd tags cur).length > 0
    · simp [h, stepRemote, applyWrite, hcur]
    · have hnil : labelsToAdd tags cur = [] := by
        simpa using Nat.le_zero.mp (Nat.not_lt.mp h)
      simp [h, hnil, stepRemote, hcur]
  rw [mem_stepRemote_removes, haddlabels]
  simp only [List.mem_append, mem_labelsToAdd, mem_labelsToRemove]
  by_cases hc : x ∈ cur <;> by_cases ht : x ∈ tags <;> simp [hc, ht]

/-- When the stored labels already coincide (as a set) with the tags,
`updateLabels` reports `"same"` and issues no calls. -/
theorem updateLabels_same_of_mem_iff (tags cur : List String)
    (h : ∀ x, x ∈ cur ↔ x ∈ tags) :
    updateLabels tags cur = (.same, ⟨[], []⟩) := by
  have hadd : labelsToAdd tags cur = [] := by
    rw [List.eq_nil_iff_forall_not_mem]
    intro x hx
    have hx' := (mem_labelsToAdd tags cur x).mp hx
    exact hx'.2 ((h x).mpr hx'.1)
  have hrem : labelsToRemove tags cur = [] := by
    rw [List.eq_nil_iff_forall_not_mem]
    intro x hx
    have hx' := (mem_labelsToRemove tags cur x).mp hx
    exact hx'.2 ((h x).mp hx'.1)
  simp [updateLabels, hadd, hrem]

theorem labelWritesToRemote_isLabelOnly (pid : String) (w : LabelWrites) :
    ∀ x ∈ labelWritesToRemote pid w, x.isLabelOnly = true := by
  intro x hx
  simp only [labelWritesToRemote, List.mem_append, List.mem_map] at hx
  rcases hx with ⟨ls, _, rfl⟩ | ⟨l, _, rfl⟩ <;> rfl

/-- C1: if a reconcile-and-update cycle for a node succeeds, then - with no
local changes and no concurrent remote edits - the second cycle reports
`contentResult = "same"`, `labelResult = "same"` (the whole result is
"same") and issues no remote write at all. -/
theorem claim_C1_idempotence (caps : ClientCaps) (me : String) (anc : List String)
    (file : ConfluenceAdfFile) (r : RemoteDoc) (r1 : UploadAdfFileResult)
    (ws1 : List RemoteWrite)
    (h : runCycle caps me anc file r = (.ok r1, ws1)) :
    runCycle caps me anc file (stepRemote me r ws1)
      = (.ok ⟨.same, .same, .same⟩, []) := by
  by_cases hg1 : (r.lastUpdatedBy != me && r.lastUpdatedBy != "") = true
  · simp only [runCycle, updatePageContent] at h
    rw [if_pos hg1] at h
    exact absurd h (by simp)
  · rw [Bool.not_eq_true] at hg1
    by_cases hg2 : (!(file.contentType == "folder" && caps.isV2Api)
        && (r.contentType != file.contentType)) = true
    · simp only [runCycle, updatePageContent] at h
      rw [if_neg (by simpa using hg1), if_pos hg2] at h
      exact absurd h (by simp)
    · rw [Bool.not_eq_true] at hg2
      by_cases hg3 : (file.contentType == "folder" && caps.isV2Api && caps.v2Folders) = true
      · -- API v2 folder branch
        by_cases hg4 : ((file.pageTitle != r.title) && caps.v2UpdateFolder) = true
        · -- folder rename in the first run
          have hres : runCycle caps me anc file r
              = (.ok ⟨.updated, .same, .same⟩,
                 [.folderUpdate file.pageId file.pageTitle]) := by
            simp only [runCycle, updatePageContent]
            rw [if_neg (by simpa using hg1), if_neg (by simpa using hg2), if_pos hg3,
              if_pos hg4]
          rw [hres] at h
          rw [Prod.mk.injEq] at h
          obtain ⟨h1, h2⟩ := h
          subst h2
          rw [show stepRemote me r [.folderUpdate file.pageId file.pageTitle]
              = { r with title := file.pageTitle, lastUpdatedBy := me } from rfl]
          simp only [runCycle, updatePageContent]
          rw [if_neg (by simp), if_neg (by simpa using hg2), if_pos hg3,
            if_neg (by simp)]
        · -- nothing to do in the first run
          rw [Bool.not_eq_true] at hg4
          have hres : runCycle caps me anc file r = (.ok ⟨.same, .same, .same⟩, []) := by
            simp only [runCycle, updatePageContent]
            rw [if_neg (by simpa using hg1), if_neg (by simpa using hg2), if_pos hg3,
              if_neg (by simpa using hg4)]
          rw [hres] at h
          rw [Prod.mk.injEq] at h
          obtain ⟨h1, h2⟩ := h
          subst h2
          exact hres
      · -- regular content path
        rw [Bool.not_eq_true] at hg3
        by_cases hg5 : adfEqual file.contents r.content = true
        · -- content unchanged: only label writes
          have hres : runCycle caps me anc file r
              = (.ok ⟨.same, .same, (updateLabels file.tags r.labels).1⟩,
                 labelWritesToRemote file.pageId (updateLabels file.tags r.labels).2) := by
            simp only [runCycle, updatePageContent]
            rw [if_neg (by simpa using hg1), if_neg (by simpa using hg2),
              if_neg (by simpa using hg3)]
            simp only [regularContentUpdate]
            rw [if_neg (by simp [hg5])]
            simp
          rw [hres] at h
          rw [Prod.mk.injEq] at h
          obtain ⟨h1, h2⟩ := h
          subst h2
          obtain ⟨hcon, htit, hver, hlu, hct⟩ := stepRemote_labelOnly me
            (labelWritesToRemote file.pageId (updateLabels file.tags r.labels).2) r
            (labelWritesToRemote_isLabelOnly file.pageId _)
          have hmem := mem_labels_after_updateLabels me file.pageId file.tags r.labels r rfl
          have hfix := updateLabels_same_of_mem_iff file.tags
            (stepRemote me r
              (labelWritesToRemote file.pageId (updateLabels file.tags r.labels).2)).labels
            hmem
          simp only [runCycle]
          rw [hcon, htit, hver, hlu, hct]
          simp only [updatePageContent]
          rw [if_neg (by simpa using hg1), if_neg (by simpa using hg2),
            if_neg (by simpa using hg3)]
          simp only [regularContentUpdate]
          rw [if_neg (by simp [hg5]), hfix]
          simp [labelWritesToRemote]
        · -- content differs: one content write plus label writes
          have hg5f : (file.contents == r.content) = false := by
            rw [Bool.not_eq_true] at hg5
            simpa [adfEqual] using hg5
          have hres : runCycle caps me anc file r
              = (.ok ⟨.updated, .same, (updateLabels file.tags r.labels).1⟩,
                 .contentUpdate (contentUpdatePayloadOf file
                     ⟨r.content, r.title, r.ancestors, r.contentType⟩ anc r.version)
                   :: labelWritesToRemote file.pageId (updateLabels file.tags r.labels).2) := by
            simp only [runCycle, updatePageContent]
            rw [if_neg (by simpa using hg1), if_neg (by simpa using hg2),
              if_neg (by simpa using hg3)]
            simp only [regularContentUpdate]
            rw [if_pos (by simp [adfEqual, hg5f]), if_neg (by simp [jsonStringifyEq, hg5f])]
            simp
          rw [hres] at h
          rw [Prod.mk.injEq] at h
          obtain ⟨h1, h2⟩ := h
          subst h2
          rw [show stepRemote me r
              (.contentUpdate (contentUpdatePayloadOf file
                  ⟨r.content, r.title, r.ancestors, r.contentType⟩ anc r.version)
                :: labelWritesToRemote file.pageId (updateLabels file.tags r.labels).2)
              = stepRemote me
                  { r with
                    content := file.contents
                    title := file.pageTitle
                    version := r.version + 1
                    lastUpdatedBy := me }
                  (labelWritesToRemote file.pageId (updateLabels file.tags r.labels).2)
            from rfl]
          obtain ⟨hcon, htit, hver, hlu, hct⟩ := stepRemote_labelOnly me
            (labelWritesToRemote file.pageId (updateLabels file.tags r.labels).2)
            { r with
              content := file.contents
              title := file.pageTitle
              version := r.version + 1
              lastUpdatedBy := me }
            (labelWritesToRemote_isLabelOnly file.pageId _)
          have hmem := mem_labels_after_updateLabels me file.pageId file.tags r.labels
            { r with
              content := file.contents
              title := file.pageTitle
              version := r.version + 1
              lastUpdatedBy := me }
            rfl
          have hfix := updateLabels_same_of_mem_iff file.tags
            (stepRemote me
              { r with
                content := file.contents
                title := file.pageTitle
                version := r.version + 1
                lastUpdatedBy := me }
              (labelWritesToRemote file.pageId (updateLabels file.tags r.labels).2)).labels
            hmem
          simp only [runCycle]
          rw [hcon, htit, hver, hlu, hct]
          simp only [updatePageContent]
          rw [if_neg (by simp), if_neg (by simpa using hg2),
            if_neg (by simpa using hg3)]
          simp only [regularContentUpdate]
          rw [if_neg (by simp [adfEqual]), hfix]
          simp [labelWritesToRemote]

/-- Witness for C1 at a concrete node whose first run updates both the
content and the labels: the second run is a no-op reporting "same". -/
theorem claim_C1_idempotence_witness :
    runCycle ⟨false, false, false⟩ "me" ["42"]
        ⟨"a.md", 5, "New", ["howto"], false, "p1", "SP", none, none, "page", none⟩
        (stepRemote "me"
          ⟨4, "Old", ["legacy"], 7, "me", "page", ["42"]⟩
          (runCycle ⟨false, false, false⟩ "me" ["42"]
            ⟨"a.md", 5, "New", ["howto"], false, "p1", "SP", none, none, "page", none⟩
            ⟨4, "Old", ["legacy"], 7, "me", "page", ["42"]⟩).2)
      = (.ok ⟨.same, .same, .same⟩, []) := by
  exact claim_C1_idempotence ⟨false, false, false⟩ "me" ["42"]
    ⟨"a.md", 5, "New", ["howto"], false, "p1", "SP", none, none, "page", none⟩
    ⟨4, "Old", ["legacy"], 7, "me", "page", ["42"]⟩
    ⟨.updated, .same, .updated⟩
    (runCycle ⟨false, false, false⟩ "me" ["42"]
      ⟨"a.md", 5, "New", ["howto"], false, "p1", "SP", none, none, "page", none⟩
      ⟨4, "Old", ["legacy"], 7, "me", "page", ["42"]⟩).2
    rfl

end MdConf
